import Mathlib

/-!
Verification of the Adaptive Personalization Engine of this repository
(brand-voice profiles, preference memory, language recommendation).

The JavaScript source is embedded shallowly:

* JavaScript numbers are modelled as exact rationals; the rounding helpers
  of the source, such as Math.round and toFixed(2), are modelled by jsRound.
* Falsy-coalescing expressions of the source, such as value-or-0.5, are
  modelled by jsOrHalf and jsOrStr on Option values, where none models a
  missing or undefined field and 0 or the empty string model the other
  falsy cases.
* The per-user slice of the relational store is modelled explicitly: the
  voice_profiles row of a user is an Option VoiceRow, and append-only
  tables are lists.  SQL upserts become pure state transformers.
* Fallible store and oracle calls are modelled by Except String values
  supplied in an environment record; the try/catch of the source becomes
  explicit case analysis with an outcome record that reports which side
  effects happened and which error, if any, was caught.
-/

/-- The eight voice dimensions, in the order of the dimension lists used by
calculateConsistencyScore and generateConsistencyRecommendations. -/
inductive Dim where
  | formality
  | humor
  | enthusiasm
  | professionalism
  | creativity
  | emotional_tone
  | confidence
  | warmth
deriving DecidableEq, Repr, Fintype

/-- An 8-dimensional voice vector: the dimension columns of a
voice_profiles row, and likewise the dimensions of an analyzed content
object. -/
structure VoiceVec where
  formality : ℚ
  humor : ℚ
  enthusiasm : ℚ
  professionalism : ℚ
  creativity : ℚ
  emotional_tone : ℚ
  confidence : ℚ
  warmth : ℚ
deriving DecidableEq, Repr

/-- Property access profile[dimension] on a voice vector. -/
def getDim (v : VoiceVec) : Dim → ℚ
  | .formality => v.formality
  | .humor => v.humor
  | .enthusiasm => v.enthusiasm
  | .professionalism => v.professionalism
  | .creativity => v.creativity
  | .emotional_tone => v.emotional_tone
  | .confidence => v.confidence
  | .warmth => v.warmth

/-- The dimensions array of calculateConsistencyScore, in source order. -/
def dimList : List Dim :=
  [.formality, .humor, .enthusiasm, .professionalism, .creativity,
   .emotional_tone, .confidence, .warmth]

/-- JavaScript Math.round on a non-negative rational: round half up. -/
def jsRound (q : ℚ) : ℤ := ⌊q + 1/2⌋

/-- Round to two decimal places, as Math.round(x * 100) / 100 and
Number(x.toFixed(2)) do for the non-negative values that arise here. -/
def jsRound2 (q : ℚ) : ℚ := (jsRound (q * 100) : ℚ) / 100

/-- Per-dimension score of calculateConsistencyScore:
Math.max(0, 1 - difference). -/
def dimensionScore (profileValue contentValue : ℚ) : ℚ :=
  max 0 (1 - |profileValue - contentValue|)

/-- The totalScore accumulator of calculateConsistencyScore. -/
def totalScore (voiceProfile contentAnalysis : VoiceVec) : ℚ :=
  dimList.foldl
    (fun acc d => acc + dimensionScore (getDim voiceProfile d) (getDim contentAnalysis d)) 0

/-- calculateConsistencyScore from the generate route: average the eight
per-dimension scores and round to two decimal places. -/
def calculateConsistencyScore (voiceProfile contentAnalysis : VoiceVec) : ℚ :=
  (jsRound (totalScore voiceProfile contentAnalysis / 8 * 100) : ℚ) / 100

/-- One descriptor of the dimensions array of
generateConsistencyRecommendations. -/
structure DimDescr where
  key : Dim
  profileLabel : String
  contentLabel : String
deriving DecidableEq, Repr

/-- The dimensions array of generateConsistencyRecommendations, in source
order. -/
def recDims : List DimDescr :=
  [⟨.formality, "Formality", "Formal"⟩,
   ⟨.humor, "Humor", "Humorous"⟩,
   ⟨.enthusiasm, "Enthusiasm", "Enthusiastic"⟩,
   ⟨.professionalism, "Professionalism", "Professional"⟩,
   ⟨.creativity, "Creativity", "Creative"⟩,
   ⟨.emotional_tone, "Emotional Tone", "Emotional"⟩,
   ⟨.confidence, "Confidence", "Confident"⟩,
   ⟨.warmth, "Warmth", "Warm"⟩]

/-- The direction local of generateConsistencyRecommendations:
contentValue greater than profileValue gives "more", otherwise "less". -/
def recDirection (profileValue contentValue : ℚ) : String :=
  if profileValue < contentValue then "more" else "less"

/-- One entry pushed by generateConsistencyRecommendations. -/
structure Recommendation where
  dimension : String
  difference : ℤ
  suggestion : String
deriving DecidableEq, Repr

/-- String.prototype.toLowerCase, modelled per character; the fixed
content labels it is applied to are plain ASCII. -/
def jsToLower (s : String) : String := String.mk (s.data.map Char.toLower)

/-- Builds the entry generateConsistencyRecommendations pushes for one
dimension descriptor. -/
def mkRecommendation (d : DimDescr) (profileValue contentValue : ℚ) : Recommendation :=
  { dimension := d.profileLabel
    difference := jsRound (|profileValue - contentValue| * 100)
    suggestion :=
      "Consider making the content " ++ recDirection profileValue contentValue ++ " "
        ++ jsToLower d.contentLabel ++ " to better match your brand voice" }

/-- generateConsistencyRecommendations from the generate route: a fixed
threshold of 0.3, one entry per dimension whose absolute difference
strictly exceeds it.  The comparison is on the rational values the vectors
hold; the running program holds IEEE754 binary64 values, which are
themselves rationals, so the program's comparisons are captured by
evaluating this function at the binary64 constants defined with the C4
theorems below (where the one subtraction involved is exact in
binary64). -/
def generateConsistencyRecommendations (voiceProfile contentAnalysis : VoiceVec) :
    List Recommendation :=
  recDims.foldl
    (fun recs d =>
      if |getDim voiceProfile d.key - getDim contentAnalysis d.key| > 3/10 then
        recs ++ [mkRecommendation d (getDim voiceProfile d.key) (getDim contentAnalysis d.key)]
      else recs)
    []

/-! ## The voice_profiles store and database.upsertVoiceProfile -/

/-- A voice_profiles row for one user (is_active and the timestamp columns
are not modelled; the table has one row per user via the UNIQUE user_id). -/
structure VoiceRow where
  profile_name : String
  vec : VoiceVec
deriving DecidableEq, Repr

/-- The voiceData argument of database.upsertVoiceProfile: a partial
vector, where none models an absent (undefined) field. -/
structure VoiceDataIn where
  profileName : Option String := none
  formality : Option ℚ := none
  humor : Option ℚ := none
  enthusiasm : Option ℚ := none
  professionalism : Option ℚ := none
  creativity : Option ℚ := none
  emotionalTone : Option ℚ := none
  confidence : Option ℚ := none
  warmth : Option ℚ := none
deriving DecidableEq, Repr

/-- Property access voiceData[dimension] on the partial input vector. -/
def getDataDim (d : VoiceDataIn) : Dim → Option ℚ
  | .formality => d.formality
  | .humor => d.humor
  | .enthusiasm => d.enthusiasm
  | .professionalism => d.professionalism
  | .creativity => d.creativity
  | .emotional_tone => d.emotionalTone
  | .confidence => d.confidence
  | .warmth => d.warmth

/-- The expression value-or-0.5 of upsertVoiceProfile on a numeric field:
a missing field and the falsy number 0 both yield 0.5. -/
def jsOrHalf : Option ℚ → ℚ
  | none => 1/2
  | some x => if x = 0 then 1/2 else x

/-- The expression profileName-or-default of upsertVoiceProfile: a missing
name and the falsy empty string both yield the default. -/
def jsOrName : Option String → String
  | none => "Default Profile"
  | some s => if s = "" then "Default Profile" else s

/-- The row written by the INSERT ... ON CONFLICT DO UPDATE of
upsertVoiceProfile: every column is set from the supplied values, with the
falsy-coalescing defaults of the source. -/
def rowOfVoiceData (voiceData : VoiceDataIn) : VoiceRow :=
  { profile_name := jsOrName voiceData.profileName
    vec :=
      { formality := jsOrHalf voiceData.formality
        humor := jsOrHalf voiceData.humor
        enthusiasm := jsOrHalf voiceData.enthusiasm
        professionalism := jsOrHalf voiceData.professionalism
        creativity := jsOrHalf voiceData.creativity
        emotional_tone := jsOrHalf voiceData.emotionalTone
        confidence := jsOrHalf voiceData.confidence
        warmth := jsOrHalf voiceData.warmth } }

/-- database.upsertVoiceProfile, acting on the one voice_profiles row of
the user: the ON CONFLICT DO UPDATE clause overwrites every dimension
column with the EXCLUDED (newly supplied) value, so the resulting row does
not depend on the previous one; RETURNING * yields the stored row. -/
def upsertVoiceProfile (stored : Option VoiceRow) (voiceData : VoiceDataIn) :
    Option VoiceRow × VoiceRow :=
  (some (rowOfVoiceData voiceData), rowOfVoiceData voiceData)

/-! ## triggerVoiceRefinement from the generate route -/

/-- A voice_training_sessions row, as written by recordTrainingSession.
accuracyScore is none when the arithmetic of calculateRefinementAccuracy
involves a missing dimension (NaN in the source). -/
structure TrainingRec where
  trainingType : String
  samplesUsed : Nat
  accuracyScore : Option ℚ
  trainingDuration : Nat
deriving DecidableEq, Repr

/-- calculateRefinementAccuracy from the generate route, on the three
dimensions it reads.  A missing dimension in the refined profile makes the
sum NaN in the source, modelled as none. -/
def calculateRefinementAccuracy (oldProfile : VoiceRow) (newProfile : VoiceDataIn) :
    Option ℚ :=
  match newProfile.formality, newProfile.humor, newProfile.enthusiasm with
  | some f, some h, some e =>
      some (max (7/10)
        (1 - (|f - oldProfile.vec.formality| + |h - oldProfile.vec.humor|
              + |e - oldProfile.vec.enthusiasm|)))
  | _, _, _ => none

/-- The per-user slice of the store that triggerVoiceRefinement touches. -/
structure EngineStore where
  voiceProfile : Option VoiceRow
  trainingSessions : List TrainingRec
deriving DecidableEq, Repr

/-- The environment of one triggerVoiceRefinement run: the outcome of each
store read, of the oracle call (geminiService.refineVoiceProfile), and of
each store write, plus the Math.random draw for trainingDuration.  An
Except.error models the corresponding awaited call throwing. -/
structure RefineEnv (α β : Type) where
  readAnalysis : Except String (List α)
  readFeedback : Except String (List β)
  oracle : Except String VoiceDataIn
  upsertWrite : Except String Unit
  recordWrite : Except String Unit
  durationDraw : Nat
deriving Repr

/-- What one triggerVoiceRefinement run did.  caughtError is the error
swallowed by the enclosing catch block, if any; the function itself never
propagates an error. -/
structure RefineOutcome where
  oracleCalled : Bool
  profileWritten : Bool
  trainingRecorded : Bool
  caughtError : Option String
deriving DecidableEq, Repr

/-- triggerVoiceRefinement from the generate route.  The whole body runs
inside try/catch, so every thrown error ends in caughtError and the call
returns normally.  Reads 20 analysis and 10 feedback records (the limits
live in the store interface, so the lists here are the returned ones),
returns early when fewer than 5 analysis records or no current profile
exist, otherwise calls the oracle, upserts the refined profile and appends
a training-session record. -/
def triggerVoiceRefinement {α β : Type} (env : RefineEnv α β) (st : EngineStore) :
    EngineStore × RefineOutcome :=
  match env.readAnalysis with
  | .error e => (st, ⟨false, false, false, some e⟩)
  | .ok analysisHistory =>
    match env.readFeedback with
    | .error e => (st, ⟨false, false, false, some e⟩)
    | .ok _feedbackHistory =>
      if analysisHistory.length < 5 then
        (st, ⟨false, false, false, none⟩)
      else
        match st.voiceProfile with
        | none => (st, ⟨false, false, false, none⟩)
        | some currentProfile =>
          match env.oracle with
          | .error e => (st, ⟨true, false, false, some e⟩)
          | .ok refinedProfile =>
            match env.upsertWrite with
            | .error e => (st, ⟨true, false, false, some e⟩)
            | .ok _ =>
              let st1 : EngineStore :=
                { st with voiceProfile := (upsertVoiceProfile st.voiceProfile refinedProfile).1 }
              match env.recordWrite with
              | .error e => (st1, ⟨true, true, false, some e⟩)
              | .ok _ =>
                let rec1 : TrainingRec :=
                  { trainingType := "feedback_based"
                    samplesUsed := analysisHistory.length
                    accuracyScore := calculateRefinementAccuracy currentProfile refinedProfile
                    trainingDuration := env.durationDraw % 30 + 10 }
                ({ st1 with trainingSessions := st1.trainingSessions ++ [rec1] },
                 ⟨true, true, true, none⟩)

/-! ## PreferenceMemory: userPreferenceService and the memory engine -/

/-- A character of the JavaScript whitespace class, as trimmed by
String.prototype.trim: the WhiteSpace and LineTerminator code points. -/
def isJsSpace (c : Char) : Bool :=
  c.toNat = 9 || c.toNat = 10 || c.toNat = 11 || c.toNat = 12 || c.toNat = 13 ||
  c.toNat = 32 || c.toNat = 160 || c.toNat = 5760 ||
  (8192 ≤ c.toNat && c.toNat ≤ 8202) ||
  c.toNat = 8232 || c.toNat = 8233 || c.toNat = 8239 || c.toNat = 8287 ||
  c.toNat = 12288 || c.toNat = 65279

/-- JavaScript String.prototype.trim: drop leading and trailing
whitespace. -/
def jsTrim (s : String) : String :=
  String.mk ((s.data.dropWhile isJsSpace).rdropWhile isJsSpace)

/-- The JavaScript Set insertion step of mergeUniqueLists: a trimmed
non-empty string is appended once, keeping first-occurrence order. -/
def setAddTrimmed (acc : List String) (item : String) : List String :=
  if jsTrim item ≠ "" then
    (if jsTrim item ∈ acc then acc else acc ++ [jsTrim item])
  else acc

/-- mergeUniqueLists from userPreferenceService: union of the trimmed
non-empty strings of both lists in first-occurrence order, capped at
limit. -/
def mergeUniqueLists (existing incoming : List String) (limit : Nat) : List String :=
  ((existing ++ incoming).foldl setAddTrimmed []).take limit

/-- mergeLists from the memory engine, a verbatim duplicate of
mergeUniqueLists in the source. -/
def mergeLists (listA listB : List String) (limit : Nat) : List String :=
  ((listA ++ listB).foldl setAddTrimmed []).take limit

/-- The caption_structure record produced by detectStructure. -/
structure CaptionStructure where
  hasEmojisAtEnd : Bool
  startsWithQuote : Bool
  containsLineBreaks : Bool
  firstSentenceLength : Nat
deriving DecidableEq, Repr

/-- A user_preferences row as returned by getPreferences (last_updated is
not modelled). -/
structure Prefs where
  preferred_tone : String
  emoji_level : ℚ
  common_phrases : List String
  disliked_phrases : List String
  caption_length_preference : String
  language_preference : String
  caption_structure : CaptionStructure
deriving DecidableEq, Repr

/-- DEFAULT_PREFERENCES from userPreferenceService. -/
def DEFAULT_PREFERENCES : Prefs :=
  { preferred_tone := "casual"
    emoji_level := 2
    common_phrases := []
    disliked_phrases := []
    caption_length_preference := "medium"
    language_preference := "en"
    caption_structure :=
      { hasEmojisAtEnd := false
        startsWithQuote := false
        containsLineBreaks := false
        firstSentenceLength := 0 } }

/-- The preferenceUpdates argument of updatePreferences: a partial record,
where none models an absent key (so the object spread keeps the current
value). -/
structure PrefUpdates where
  preferred_tone : Option String := none
  emoji_level : Option ℚ := none
  common_phrases : Option (List String) := none
  disliked_phrases : Option (List String) := none
  caption_length_preference : Option String := none
  language_preference : Option String := none
  caption_structure : Option CaptionStructure := none
deriving DecidableEq, Repr

/-- The nextPrefs value built by updatePreferences: an object spread of the
current row under the updates, then common_phrases always re-merged (an
absent update list falls back to the [] default parameter), and
disliked_phrases re-merged only when the update supplies that key (any
supplied array, even [], is truthy in the source). -/
def updatePreferencesPure (currentPrefs : Prefs) (preferenceUpdates : PrefUpdates) : Prefs :=
  { preferred_tone := preferenceUpdates.preferred_tone.getD currentPrefs.preferred_tone
    emoji_level := preferenceUpdates.emoji_level.getD currentPrefs.emoji_level
    common_phrases :=
      mergeUniqueLists currentPrefs.common_phrases
        (preferenceUpdates.common_phrases.getD []) 10
    disliked_phrases :=
      match preferenceUpdates.disliked_phrases with
      | some l => mergeUniqueLists currentPrefs.disliked_phrases l 10
      | none => currentPrefs.disliked_phrases
    caption_length_preference :=
      preferenceUpdates.caption_length_preference.getD currentPrefs.caption_length_preference
    language_preference :=
      preferenceUpdates.language_preference.getD currentPrefs.language_preference
    caption_structure :=
      preferenceUpdates.caption_structure.getD currentPrefs.caption_structure }

/-- updatePreferences from userPreferenceService with its two store
suspensions made explicit: the getPreferences read and the upsert write.
The function has no try/catch, so a failing read or write propagates
unchanged through the Except bind; on success the RETURNING row is the
written nextPrefs. -/
def updatePreferences (readPrefs : Except String Prefs) (preferenceUpdates : PrefUpdates)
    (writeResult : Except String Unit) : Except String Prefs := do
  let currentPrefs ← readPrefs
  let nextPrefs := updatePreferencesPure currentPrefs preferenceUpdates
  let _ ← writeResult
  return nextPrefs

/-- Insertion step of a stable descending sort: gt decides strict
precedence, so an element never moves before an equal one.  This matches
the stable Array.prototype.sort of the source with a descending numeric
comparator. -/
def insertByGt {α : Type} (gt : α → α → Bool) (x : α) : List α → List α
  | [] => [x]
  | y :: ys => if gt x y then x :: y :: ys else y :: insertByGt gt x ys

/-- Stable sort placing strictly greater elements first, ties kept in
input order. -/
def sortByGt {α : Type} (gt : α → α → Bool) (l : List α) : List α :=
  l.foldl (fun acc x => insertByGt gt x acc) []

/-- Frequency-count accumulator of extractPhrases, keeping keys in
first-occurrence order as JavaScript object keys do. -/
def bumpCount : List (String × Nat) → String → List (String × Nat)
  | [], w => [(w, 1)]
  | (k, c) :: rest, w =>
      if k = w then (k, c + 1) :: rest else (k, c) :: bumpCount rest w

/-- A character of the token class of extractPhrases: ASCII letters and
the U+00C0 to U+017F block of the source regex. -/
def isPhraseChar (c : Char) : Bool :=
  (65 ≤ c.toNat ∧ c.toNat ≤ 90) ∨ (97 ≤ c.toNat ∧ c.toNat ≤ 122)
    ∨ (192 ≤ c.toNat ∧ c.toNat ≤ 383)

/-- Splits a character list into its maximal runs of token characters; the
word-boundary anchors of the source regex are modelled as these maximal-run
boundaries. -/
def phraseRunsAux : List Char → List Char → List String
  | [], cur => if cur.isEmpty then [] else [String.mk cur.reverse]
  | c :: rest, cur =>
      if isPhraseChar c then phraseRunsAux rest (c :: cur)
      else if cur.isEmpty then phraseRunsAux rest []
      else String.mk cur.reverse :: phraseRunsAux rest []

/-- extractPhrases from the memory engine: lower-case, collect tokens of
length at least 6, count frequencies, order by descending frequency with
ties in first-occurrence order, keep the first 10. -/
def extractPhrases (text : String) : List String :=
  let words := (phraseRunsAux text.toLower.data []).filter (fun w => 6 ≤ w.length)
  let counts := words.foldl bumpCount []
  ((sortByGt (fun a b => decide (b.2 < a.2)) counts).map Prod.fst).take 10

/-- A sentence terminator of the first-sentence regex of detectStructure. -/
def isTerminator (c : Char) : Bool := c = '.' || c = '!' || c = '?'

/-- Length of the matched sentence run once a non-terminator has started
it: non-terminators are consumed, one closing terminator counts. -/
def takeSentence : List Char → Nat
  | [] => 0
  | c :: rest => if isTerminator c then 1 else 1 + takeSentence rest

/-- The first-sentence match of detectStructure: none when the text has no
non-terminator character, as the unanchored regex then finds no match. -/
def firstSentenceMatchLen : List Char → Option Nat
  | [] => none
  | c :: rest =>
      if isTerminator c then firstSentenceMatchLen rest
      else some (1 + takeSentence rest)

/-- The two emoji regexes of the memory engine depend on Unicode property
tables, which are external data; they enter the model as this capability
record.  emojiCount is the match count of the emoji class regex and
endsWithEmoji the end-anchored emoji test. -/
structure UnicodeRegex where
  emojiCount : String → Nat
  endsWithEmoji : String → Bool

/-- detectStructure from the memory engine. -/
def detectStructure (ur : UnicodeRegex) (text : String) : CaptionStructure :=
  let trimmed := jsTrim text
  { hasEmojisAtEnd := ur.endsWithEmoji trimmed
    startsWithQuote :=
      match trimmed.data with
      | [] => false
      | c :: _ => c.toNat = 34 || c.toNat = 39 || c.toNat = 8220 || c.toNat = 8221
    containsLineBreaks := text.data.contains '\n'
    firstSentenceLength := (firstSentenceMatchLen trimmed.data).getD trimmed.data.length }

/-- detectTone from the memory engine (string length counts characters; the
UTF-16 unit count of the source agrees on the text that matters here). -/
def detectTone (text : String) : String :=
  if text = "" then "casual"
  else if text.data.contains '!' then "energetic"
  else if 200 < text.data.length then "detailed"
  else "casual"

/-- detectLengthPreference from the memory engine. -/
def detectLengthPreference (text : String) : String :=
  if text.data.length < 150 then "short"
  else if text.data.length < 250 then "medium"
  else "long"

/-- detectEmojiLevel from the memory engine: clamp(count, 0, 5) on the
non-negative match count. -/
def detectEmojiLevel (ur : UnicodeRegex) (text : String) : Nat :=
  min (ur.emojiCount text) 5

/-- A falsy-coalescing string expression: value-or-fallback. -/
def jsOrStr (v : Option String) (fallback : String) : String :=
  match v with
  | none => fallback
  | some s => if s = "" then fallback else s

/-- JavaScript truthiness of a numeric user id. -/
def jsTruthyNat : Option Nat → Bool
  | none => false
  | some n => n ≠ 0

/-- learnFromCaption from the memory engine.  Returns null (here ok none)
before any store access when userId or finalCaption is falsy; otherwise
awaits getPreferences (the supplied readPrefs, whose failure propagates)
and assembles the merged snapshot without writing to the store.  The
second component records whether the getPreferences read was reached. -/
def learnFromCaption (ur : UnicodeRegex) (userId : Option Nat) (finalCaption : String)
    (ctxLanguage : Option String) (readPrefs : Except String Prefs) :
    Except String (Option PrefUpdates) × Bool :=
  if ¬ jsTruthyNat userId ∨ finalCaption = "" then (.ok none, false)
  else
    match readPrefs with
    | .error e => (.error e, true)
    | .ok existingPrefs =>
      let languagePreference := jsOrStr ctxLanguage existingPrefs.language_preference
      let detectedEmoji : ℚ := (detectEmojiLevel ur finalCaption : ℚ)
      let newEmojiLevel := (existingPrefs.emoji_level + detectedEmoji) / 2
      let detectedTone := detectTone finalCaption
      (.ok (some
        { preferred_tone :=
            some (if detectedTone = "" then existingPrefs.preferred_tone else detectedTone)
          emoji_level := some (jsRound2 newEmojiLevel)
          common_phrases :=
            some (mergeLists existingPrefs.common_phrases (extractPhrases finalCaption) 10)
          disliked_phrases := none
          caption_length_preference := some (detectLengthPreference finalCaption)
          language_preference :=
            some (jsOrStr (some languagePreference) existingPrefs.language_preference)
          caption_structure := some (detectStructure ur finalCaption) }), true)

/-- What the memory block of the POST / generation route did. -/
structure MemoryStepOutcome where
  prefsRead : Bool
  updateCalled : Bool
  storeWritten : Bool
  caughtError : Option String
deriving DecidableEq, Repr

/-- The best-effort memory block of the POST / generation route: awaits
learnFromCaption and, only when it returned a non-null snapshot, awaits
updatePreferences; any error is caught and logged as non-critical.
readPrefs1 feeds the getPreferences read inside learnFromCaption,
readPrefs2 and writeResult the read and write inside updatePreferences. -/
def routeMemoryStep (ur : UnicodeRegex) (userId : Option Nat) (caption : String)
    (lang : Option String) (readPrefs1 readPrefs2 : Except String Prefs)
    (writeResult : Except String Unit) : MemoryStepOutcome :=
  match learnFromCaption ur userId caption lang readPrefs1 with
  | (.error e, r) => ⟨r, false, false, some e⟩
  | (.ok none, r) => ⟨r, false, false, none⟩
  | (.ok (some learnedPrefs), r) =>
    match updatePreferences readPrefs2 learnedPrefs writeResult with
    | .ok _ => ⟨r, true, true, none⟩
    | .error e => ⟨r, true, false, some e⟩

/-! ## LanguageAdvisor: recommendLanguage from the language service -/

/-- JavaScript truthiness of an optional string argument. -/
def jsTruthyStr : Option String → Bool
  | none => false
  | some s => s ≠ ""

/-- The recommendation object produced by recommendLanguage. -/
structure LanguageRec where
  mode : String
  primary : String
  secondary : Option String
  reason : String
  sources : List String
deriving DecidableEq, Repr

/-- The ranking step of the history branch:
Object.entries(distribution).sort with a descending stable comparator on
the share.  The distribution itself is modelled as its entry list in
insertion order. -/
def rankDesc (distribution : List (String × ℚ)) : List (String × ℚ) :=
  sortByGt (fun a b => decide (b.2 < a.2)) distribution

/-- recommendLanguage from the language service.  captionDetection stands
for the result of detectLanguageFromCaption(captionText) (none when the
caption is falsy or the n-gram identifier finds no whitelisted code; a
whitelisted ISO code is never empty).  distribution stands for the value
detectLanguageDistributionForUser would resolve to: none for null,
otherwise a non-empty entry list.  The second component records whether
that history lookup was awaited; the source awaits it whenever
preferredLanguage is falsy, before consulting the caption result.  The
some [] case cannot arise from the history lookup; the source would throw
destructuring ranked[0], modelled as none. -/
def recommendLanguage (preferredLanguage : Option String)
    (captionDetection : Option String) (imageLanguageHint : Option String)
    (fallbackLanguage : String) (distribution : Option (List (String × ℚ))) :
    Option LanguageRec × Bool :=
  if jsTruthyStr preferredLanguage then
    (some ⟨"single", preferredLanguage.getD "", none, "user-preference", ["preference"]⟩,
     false)
  else
    let sources1 : List String := if captionDetection.isSome then ["caption"] else []
    let sources2 : List String :=
      sources1 ++ (if distribution.isSome then ["history"] else [])
    match captionDetection with
    | some isoCode => (some ⟨"single", isoCode, none, "caption-detected", sources2⟩, true)
    | none =>
      if jsTruthyStr imageLanguageHint then
        (some ⟨"single", imageLanguageHint.getD "", none, "image-detected",
               sources2 ++ ["image"]⟩, true)
      else
        match distribution with
        | some entries =>
          match rankDesc entries with
          | [] => (none, true)
          | (topLang, topShare) :: rest =>
            let secondLang : Option String := rest.head?.map Prod.fst
            let secondShare : ℚ := ((rest.head?.map Prod.snd).getD 0)
            if 7/10 ≤ topShare then
              (some ⟨"single", topLang, none, "audience-majority", sources2⟩, true)
            else if 1/2 ≤ topShare ∧ 1/5 ≤ secondShare then
              (some ⟨"bilingual", topLang, secondLang, "audience-mixed", sources2⟩, true)
            else
              (some ⟨"single", topLang, none, "audience-default", sources2⟩, true)
        | none => (some ⟨"single", fallbackLanguage, none, "fallback", sources2⟩, true)

/-! ## Helper lemmas -/

/-- A push-if fold is an append of the filtered, mapped list. -/
theorem foldl_push_filter {α β : Type} (p : α → Prop) [DecidablePred p] (f : α → β) :
    ∀ (l : List α) (init : List β),
      l.foldl (fun acc d => if p d then acc ++ [f d] else acc) init
        = init ++ (l.filter (fun d => decide (p d))).map f := by
  intro l
  induction l with
  | nil => intro init; simp
  | cons x xs ih =>
      intro init
      by_cases h : p x <;> simp [List.filter_cons, h, ih, List.append_assoc]

/-- The per-dimension consistency score is non-negative. -/
theorem dimensionScore_nonneg (p a : ℚ) : 0 ≤ dimensionScore p a := le_max_left 0 _

/-- The per-dimension consistency score is at most one. -/
theorem dimensionScore_le_one (p a : ℚ) : dimensionScore p a ≤ 1 :=
  max_le (by norm_num) (by have := abs_nonneg (p - a); linarith)

/-- The totalScore fold equals the sum over the dimension list. -/
theorem totalScore_eq_sum (P A : VoiceVec) :
    totalScore P A
      = (dimList.map (fun d => dimensionScore (getDim P d) (getDim A d))).sum := by
  simp [totalScore, dimList]
  ring

/-- totalScore is bounded by the number of dimensions. -/
theorem totalScore_bounds (P A : VoiceVec) :
    0 ≤ totalScore P A ∧ totalScore P A ≤ 8 := by
  have h := fun d => dimensionScore_nonneg (getDim P d) (getDim A d)
  have h' := fun d => dimensionScore_le_one (getDim P d) (getDim A d)
  constructor <;>
    · simp [totalScore, dimList]
      have h1 := h Dim.formality
      have h2 := h Dim.humor
      have h3 := h Dim.enthusiasm
      have h4 := h Dim.professionalism
      have h5 := h Dim.creativity
      have h6 := h Dim.emotional_tone
      have h7 := h Dim.confidence
      have h8 := h Dim.warmth
      have g1 := h' Dim.formality
      have g2 := h' Dim.humor
      have g3 := h' Dim.enthusiasm
      have g4 := h' Dim.professionalism
      have g5 := h' Dim.creativity
      have g6 := h' Dim.emotional_tone
      have g7 := h' Dim.confidence
      have g8 := h' Dim.warmth
      linarith


/-- Characterization of jsRound at a known integer output. -/
theorem jsRound_eq {q : ℚ} {n : ℤ} (h1 : (n:ℚ) ≤ q + 1/2) (h2 : q + 1/2 < n + 1) :
    jsRound q = n := by
  rw [jsRound]
  exact Int.floor_eq_iff.mpr ⟨h1, by exact_mod_cast h2⟩

/-- The floor-based rounding stays within [0, 100] on a [0, 100] input. -/
theorem jsRound_bounds {q : ℚ} (h0 : 0 ≤ q) (h1 : q ≤ 100) :
    0 ≤ jsRound q ∧ jsRound q ≤ 100 := by
  constructor
  · rw [jsRound]
    exact Int.floor_nonneg.mpr (by linarith)
  · have h2 : (jsRound q : ℚ) ≤ q + 1/2 := by rw [jsRound]; exact Int.floor_le _
    have h3 : ((jsRound q : ℤ) : ℚ) < ((101:ℤ) : ℚ) := by push_cast; linarith
    have h4 : jsRound q < 101 := by exact_mod_cast h3
    omega

/-- The profile of the documented consistency example: formality 0.8, all
other dimensions 0.5. -/
def exProfile : VoiceVec := ⟨4/5, 1/2, 1/2, 1/2, 1/2, 1/2, 1/2, 1/2⟩

/-- The analyzed vector of the documented consistency example: all
dimensions 0.5. -/
def exAnalysis : VoiceVec := ⟨1/2, 1/2, 1/2, 1/2, 1/2, 1/2, 1/2, 1/2⟩

/-- C3: calculateConsistencyScore is the mean of the eight per-dimension
scores max(0, 1 - |profile - analyzed|), rounded to two decimal places; it
lies in [0, 1]; a profile scored against itself gives 1; the documented
concrete pair (formality 0.8 versus 0.5, all other dimensions 0.5) gives
0.96. -/
theorem calculateConsistencyScore_spec (P A : VoiceVec)
    (hP : ∀ d : Dim, 0 ≤ getDim P d ∧ getDim P d ≤ 1)
    (hA : ∀ d : Dim, 0 ≤ getDim A d ∧ getDim A d ≤ 1) :
    (calculateConsistencyScore P A
        = (jsRound
            ((dimList.map (fun d => max 0 (1 - |getDim P d - getDim A d|))).sum / 8 * 100)
            : ℚ) / 100)
    ∧ (0 ≤ calculateConsistencyScore P A ∧ calculateConsistencyScore P A ≤ 1)
    ∧ calculateConsistencyScore P P = 1
    ∧ calculateConsistencyScore exProfile exAnalysis = 96/100 := by
  refine ⟨?_, ⟨?_, ?_⟩, ?_, ?_⟩
  · rw [calculateConsistencyScore, totalScore_eq_sum]
    simp [dimensionScore]
  · have hb := totalScore_bounds P A
    have h := (jsRound_bounds (q := totalScore P A / 8 * 100)
      (by linarith) (by linarith)).1
    rw [calculateConsistencyScore]
    positivity
  · have hb := totalScore_bounds P A
    have h := (jsRound_bounds (q := totalScore P A / 8 * 100)
      (by linarith) (by linarith)).2
    rw [calculateConsistencyScore]
    rw [div_le_one (by norm_num)]
    exact_mod_cast h
  · have h8 : totalScore P P = 8 := by
      simp [totalScore, dimList, dimensionScore]
      norm_num
    rw [calculateConsistencyScore, h8]
    rw [show jsRound (8/8*100) = 100 from jsRound_eq (by norm_num) (by norm_num)]
    norm_num
  · have h77 : totalScore exProfile exAnalysis = 77/10 := by
      simp [totalScore, dimList, dimensionScore, getDim, exProfile, exAnalysis]
      norm_num [abs_of_nonneg, sup_eq_max, max_eq_right]
    rw [calculateConsistencyScore, h77]
    rw [show jsRound (77/10/8*100) = 96 from jsRound_eq (by norm_num) (by norm_num)]
    norm_num

/-- Closed instance discharging the hypotheses of
calculateConsistencyScore_spec at the documented concrete pair. -/
theorem calculateConsistencyScore_spec_witness :
    0 ≤ calculateConsistencyScore exProfile exAnalysis
    ∧ calculateConsistencyScore exProfile exAnalysis ≤ 1
    ∧ calculateConsistencyScore exProfile exAnalysis = 96/100 := by
  have h := calculateConsistencyScore_spec exProfile exAnalysis
    (by intro d; cases d <;> constructor <;> norm_num [getDim, exProfile])
    (by intro d; cases d <;> constructor <;> norm_num [getDim, exAnalysis])
  exact ⟨h.2.1.1, h.2.1.2, h.2.2.2⟩

/-- The IEEE754 binary64 value the running program holds for the literal
0.8: 3602879701896397 / 2^52. -/
def double08 : ℚ := 3602879701896397 / 4503599627370496

/-- The binary64 value of the threshold literal 0.3:
5404319552844595 / 2^54, slightly below 3/10. -/
def double03 : ℚ := 5404319552844595 / 18014398509481984

/-- The documented boundary pair as the program stores it: formality is
the binary64 value of 0.8; 0.5 and the threshold comparison operands are
handled below (0.5 is exact in binary64). -/
def exProfileF : VoiceVec := ⟨double08, 1/2, 1/2, 1/2, 1/2, 1/2, 1/2, 1/2⟩

/-- The analyzed vector of the documented boundary pair: all dimensions
0.5, exact in binary64. -/
def exAnalysisF : VoiceVec := ⟨1/2, 1/2, 1/2, 1/2, 1/2, 1/2, 1/2, 1/2⟩

/-- At the binary64 boundary pair the fold emits exactly one formality
entry: the formality difference exceeds 3/10 (so the strict compare
fires), its rounded percentage is 30, and the direction is "less". -/
theorem recsFloatPair_eval :
    generateConsistencyRecommendations exProfileF exAnalysisF
      = [⟨"Formality", 30,
          "Consider making the content less formal to better match your brand voice"⟩] := by
  have hgt : |double08 - (1:ℚ)/2| > 3/10 := by
    rw [abs_of_nonneg (by norm_num [double08])]
    norm_num [double08]
  have hj : jsRound (|double08 - (1:ℚ)/2| * 100) = 30 := by
    rw [abs_of_nonneg (by norm_num [double08])]
    exact jsRound_eq (by norm_num [double08]) (by norm_num [double08])
  have hdir : recDirection double08 ((1:ℚ)/2) = "less" := by
    rw [recDirection, if_neg]
    norm_num [double08]
  have hchar := foldl_push_filter
    (fun d => |getDim exProfileF d.key - getDim exAnalysisF d.key| > 3/10)
    (fun d => mkRecommendation d (getDim exProfileF d.key) (getDim exAnalysisF d.key))
    recDims []
  rw [generateConsistencyRecommendations]
  rw [hchar]
  simp only [List.nil_append, recDims, List.filter_cons, List.filter_nil,
    getDim, exProfileF, exAnalysisF]
  rw [decide_eq_true hgt]
  norm_num
  rw [mkRecommendation]
  simp only [getDim, hj, hdir]
  rfl

/-- C4 counterexample: at the claim's named pair P.formality = 0.8,
A.formality = 0.5 the program's binary64 subtraction is exact — the
difference 1351079888211149/2^52 (0.30000000000000004) fits the 53-bit
significand — and strictly exceeds both the rational threshold 3/10 and
the binary64 threshold the source compares against, so
generateConsistencyRecommendations emits a formality entry with direction
"less" at this pair, refuting the claim that no entry is produced. -/
theorem generateConsistencyRecommendations_float_counterexample :
    (∃ m : ℤ, m.natAbs < 2^53 ∧ double08 - 1/2 = (m : ℚ) / 2^52)
    ∧ |double08 - 1/2| > 3/10
    ∧ |double08 - 1/2| > double03
    ∧ generateConsistencyRecommendations exProfileF exAnalysisF
        = [⟨"Formality", 30,
            "Consider making the content less formal to better match your brand voice"⟩] := by
  refine ⟨⟨1351079888211149, by norm_num, by norm_num [double08]⟩, ?_, ?_,
    recsFloatPair_eval⟩
  · rw [abs_of_nonneg (by norm_num [double08])]
    norm_num [double08]
  · rw [abs_of_nonneg (by norm_num [double08])]
    norm_num [double08, double03]

/-- C4 as amended: generateConsistencyRecommendations emits an entry for
exactly those dimensions whose computed absolute delta strictly exceeds
the 0.3 threshold, with direction word "more" exactly when the analyzed
value exceeds the profile value; but the deltas the program computes are
binary64 values, and at the documented pair (formality 0.8 versus 0.5,
all other dimensions equal) the stored doubles subtract to strictly more
than 0.3, so that pair produces exactly one formality entry with
direction "less" and rounded difference 30 — not no entry. -/
theorem generateConsistencyRecommendations_amended :
    (∀ P A : VoiceVec,
      generateConsistencyRecommendations P A
        = (recDims.filter
            (fun d => decide (|getDim P d.key - getDim A d.key| > 3/10))).map
            (fun d => mkRecommendation d (getDim P d.key) (getDim A d.key)))
    ∧ (∀ p a : ℚ, recDirection p a = "more" ↔ p < a)
    ∧ generateConsistencyRecommendations exProfileF exAnalysisF
        = [⟨"Formality", 30,
            "Consider making the content less formal to better match your brand voice"⟩] := by
  refine ⟨?_, ?_, recsFloatPair_eval⟩
  · intro P A
    rw [generateConsistencyRecommendations]
    simpa using foldl_push_filter
      (fun d => |getDim P d.key - getDim A d.key| > 3/10)
      (fun d => mkRecommendation d (getDim P d.key) (getDim A d.key)) recDims []
  · intro p a
    rw [recDirection]
    by_cases h : p < a
    · simp [h]
    · simp [h]

/-- jsOrHalf yields 0.5 on a missing or zero input. -/
theorem jsOrHalf_falsy {v : Option ℚ} (h : v = none ∨ v = some 0) :
    jsOrHalf v = 1/2 := by
  rcases h with rfl | rfl <;> simp [jsOrHalf]

/-- jsOrHalf is the identity on a supplied non-zero value. -/
theorem jsOrHalf_truthy {x : ℚ} (h : x ≠ 0) : jsOrHalf (some x) = x := by
  simp [jsOrHalf, h]

/-- jsOrHalf stays in [0, 1] when any supplied value is in [0, 1]. -/
theorem jsOrHalf_mem {v : Option ℚ} (h : ∀ x : ℚ, v = some x → 0 ≤ x ∧ x ≤ 1) :
    0 ≤ jsOrHalf v ∧ jsOrHalf v ≤ 1 := by
  match v with
  | none => constructor <;> norm_num [jsOrHalf]
  | some x =>
      rw [jsOrHalf]
      by_cases hx : x = 0
      · simp only [hx, if_pos rfl]
        constructor <;> norm_num
      · simp only [if_neg hx]
        exact h x rfl

/-- The written row reads each dimension through jsOrHalf. -/
theorem getDim_rowOfVoiceData (voiceData : VoiceDataIn) (d : Dim) :
    getDim (rowOfVoiceData voiceData).vec d = jsOrHalf (getDataDim voiceData d) := by
  cases d <;> rfl

/-- The stored profile of the C1 counterexample: formality 0.9. -/
def c1Existing : Option VoiceRow :=
  some ⟨"Default Profile", ⟨9/10, 1/2, 1/2, 1/2, 1/2, 1/2, 1/2, 1/2⟩⟩

/-- The C1 counterexample update: formality absent, humor 2. -/
def c1Update : VoiceDataIn := { humor := some 2 }

/-- C1 counterexample: updating the stored profile (formality 0.9) with a
partial vector that omits formality and supplies humor = 2 stores
formality 0.5 (the existing value is not retained) and humor 2 (no
clamping to [0, 1]), so a stored dimension leaves [0, 1]. -/
theorem upsertVoiceProfile_counterexample :
    ((upsertVoiceProfile c1Existing c1Update).2.vec.formality = 1/2
      ∧ ¬ (upsertVoiceProfile c1Existing c1Update).2.vec.formality = 9/10)
    ∧ ((upsertVoiceProfile c1Existing c1Update).2.vec.humor = 2
      ∧ ¬ (upsertVoiceProfile c1Existing c1Update).2.vec.humor ≤ 1)
    ∧ (upsertVoiceProfile c1Existing c1Update).1
        = some (upsertVoiceProfile c1Existing c1Update).2 := by
  have hf : (upsertVoiceProfile c1Existing c1Update).2.vec.formality = 1/2 := by
    norm_num [upsertVoiceProfile, rowOfVoiceData, jsOrHalf, c1Update]
  have hh : (upsertVoiceProfile c1Existing c1Update).2.vec.humor = 2 := by
    norm_num [upsertVoiceProfile, rowOfVoiceData, jsOrHalf, c1Update]
  refine ⟨⟨hf, ?_⟩, ⟨hh, ?_⟩, rfl⟩
  · rw [hf]; norm_num
  · rw [hh]; norm_num

/-- C1 as amended: upsertVoiceProfile persists each supplied non-zero
dimension unchanged (no clamping), replaces a missing or zero dimension
with 0.5 on creation and update alike (never the previously stored value),
stores exactly the returned row, and keeps the stored dimensions in [0, 1]
only when every supplied value is in [0, 1]. -/
theorem upsertVoiceProfile_amended (stored : Option VoiceRow) (voiceData : VoiceDataIn) :
    ((upsertVoiceProfile stored voiceData).1
        = some (upsertVoiceProfile stored voiceData).2)
    ∧ (∀ d : Dim, getDataDim voiceData d = none ∨ getDataDim voiceData d = some 0 →
        getDim (upsertVoiceProfile stored voiceData).2.vec d = 1/2)
    ∧ (∀ d : Dim, ∀ x : ℚ, getDataDim voiceData d = some x → x ≠ 0 →
        getDim (upsertVoiceProfile stored voiceData).2.vec d = x)
    ∧ ((∀ d : Dim, ∀ x : ℚ, getDataDim voiceData d = some x → 0 ≤ x ∧ x ≤ 1) →
        ∀ d : Dim, 0 ≤ getDim (upsertVoiceProfile stored voiceData).2.vec d
          ∧ getDim (upsertVoiceProfile stored voiceData).2.vec d ≤ 1) := by
  refine ⟨rfl, ?_, ?_, ?_⟩
  · intro d hd
    rw [upsertVoiceProfile, getDim_rowOfVoiceData]
    exact jsOrHalf_falsy hd
  · intro d x hd hx
    rw [upsertVoiceProfile, getDim_rowOfVoiceData, hd]
    exact jsOrHalf_truthy hx
  · intro h d
    rw [upsertVoiceProfile, getDim_rowOfVoiceData]
    exact jsOrHalf_mem (h d)

/-- The concrete partial vector of the C1 witness: formality 0.75 supplied,
everything else absent. -/
def c1WitnessData : VoiceDataIn := { formality := some (3/4) }

/-- Closed instance discharging the hypotheses of
upsertVoiceProfile_amended at a concrete partial vector. -/
theorem upsertVoiceProfile_amended_witness :
    getDim (upsertVoiceProfile none c1WitnessData).2.vec Dim.formality = 3/4
    ∧ getDim (upsertVoiceProfile none c1WitnessData).2.vec Dim.humor = 1/2
    ∧ (0 ≤ getDim (upsertVoiceProfile none c1WitnessData).2.vec Dim.formality
        ∧ getDim (upsertVoiceProfile none c1WitnessData).2.vec Dim.formality ≤ 1) := by
  have h := upsertVoiceProfile_amended none c1WitnessData
  refine ⟨h.2.2.1 Dim.formality (3/4) rfl (by norm_num),
          h.2.1 Dim.humor (Or.inl rfl),
          h.2.2.2 ?_ Dim.formality⟩
  intro d x hx
  cases d <;> simp [getDataDim, c1WitnessData] at hx
  subst hx
  constructor <;> norm_num

/-- C5: with fewer than 5 analysis records, triggerVoiceRefinement is a
no-op after the two initial history reads: the oracle is not called, no
profile upsert or other store write happens, no training-session record is
appended, and no error escapes. -/
theorem triggerVoiceRefinement_insufficient_data {α β : Type} (env : RefineEnv α β)
    (st : EngineStore) (analysisHistory : List α) (feedbackHistory : List β)
    (hA : env.readAnalysis = .ok analysisHistory)
    (hF : env.readFeedback = .ok feedbackHistory)
    (hlen : analysisHistory.length < 5) :
    triggerVoiceRefinement env st = (st, ⟨false, false, false, none⟩) := by
  simp [triggerVoiceRefinement, hA, hF, hlen]

/-- C6: when the oracle call fails inside triggerVoiceRefinement, the error
is caught (the call still returns normally), the stored profile is left
unchanged and no training-session record is appended. -/
theorem triggerVoiceRefinement_oracle_failure {α β : Type} (env : RefineEnv α β)
    (st : EngineStore) (analysisHistory : List α) (feedbackHistory : List β)
    (currentProfile : VoiceRow) (e : String)
    (hA : env.readAnalysis = .ok analysisHistory)
    (hF : env.readFeedback = .ok feedbackHistory)
    (hlen : ¬ analysisHistory.length < 5)
    (hp : st.voiceProfile = some currentProfile)
    (ho : env.oracle = .error e) :
    triggerVoiceRefinement env st = (st, ⟨true, false, false, some e⟩) := by
  simp [triggerVoiceRefinement, hA, hF, hlen, hp, ho]

/-- The C7 counterexample environment: every store read and the oracle
succeed, but the profile upsert write fails. -/
def c7Env : RefineEnv Unit Unit :=
  { readAnalysis := .ok [(), (), (), (), ()]
    readFeedback := .ok []
    oracle := .ok {}
    upsertWrite := .error "store write failed"
    recordWrite := .ok ()
    durationDraw := 0 }

/-- The C7 counterexample store state. -/
def c7Store : EngineStore :=
  { voiceProfile := some ⟨"Default Profile", ⟨1/2, 1/2, 1/2, 1/2, 1/2, 1/2, 1/2, 1/2⟩⟩
    trainingSessions := [] }

/-- C7 counterexample: a failing profile upsert (a store failure) inside
triggerVoiceRefinement is caught by its catch block — the operation
completes normally with the error merely recorded as caught, so a store
failure is not surfaced to the caller. -/
theorem storeFailure_swallowed_counterexample :
    c7Env.upsertWrite = .error "store write failed"
    ∧ triggerVoiceRefinement c7Env c7Store
        = (c7Store, ⟨true, false, false, some "store write failed"⟩) := by
  constructor
  · rfl
  · rfl

/-- C7 as amended: a store failure propagates unchanged out of
updatePreferences (both the read and the write), but inside
triggerVoiceRefinement a store failure of the profile upsert is caught and
the operation completes normally, leaving the store unchanged and writing
no training-session record. -/
theorem storeFailure_propagation_amended :
    (∀ (e : String) (upd : PrefUpdates) (w : Except String Unit),
        updatePreferences (.error e) upd w = .error e)
    ∧ (∀ (cur : Prefs) (upd : PrefUpdates) (e : String),
        updatePreferences (.ok cur) upd (.error e) = .error e)
    ∧ (∀ (α β : Type) (env : RefineEnv α β) (st : EngineStore)
        (analysisHistory : List α) (feedbackHistory : List β)
        (currentProfile : VoiceRow) (refined : VoiceDataIn) (e : String),
        env.readAnalysis = .ok analysisHistory →
        env.readFeedback = .ok feedbackHistory →
        ¬ analysisHistory.length < 5 →
        st.voiceProfile = some currentProfile →
        env.oracle = .ok refined →
        env.upsertWrite = .error e →
        triggerVoiceRefinement env st = (st, ⟨true, false, false, some e⟩)) := by
  refine ⟨?_, ?_, ?_⟩
  · intro e upd w
    rfl
  · intro cur upd e
    rfl
  · intro α β env st analysisHistory feedbackHistory currentProfile refined e
      hA hF hlen hp ho hu
    simp [triggerVoiceRefinement, hA, hF, hlen, hp, ho, hu]

/-- Closed instance discharging the hypotheses of C5 at a concrete
environment with a 3-record history. -/
theorem triggerVoiceRefinement_insufficient_data_witness :
    triggerVoiceRefinement
      (α := Unit) (β := Unit)
      { readAnalysis := .ok [(), (), ()]
        readFeedback := .ok []
        oracle := .ok {}
        upsertWrite := .ok ()
        recordWrite := .ok ()
        durationDraw := 0 } c7Store
      = (c7Store, ⟨false, false, false, none⟩) :=
  triggerVoiceRefinement_insufficient_data _ _ [(), (), ()] []
    rfl rfl (by norm_num)

/-- Closed instance discharging the hypotheses of C6 at a concrete
environment whose oracle call fails. -/
theorem triggerVoiceRefinement_oracle_failure_witness :
    triggerVoiceRefinement
      (α := Unit) (β := Unit)
      { readAnalysis := .ok [(), (), (), (), ()]
        readFeedback := .ok []
        oracle := .error "oracle unavailable"
        upsertWrite := .ok ()
        recordWrite := .ok ()
        durationDraw := 0 } c7Store
      = (c7Store, ⟨true, false, false, some "oracle unavailable"⟩) :=
  triggerVoiceRefinement_oracle_failure _ c7Store [(), (), (), (), ()] []
    ⟨"Default Profile", ⟨1/2, 1/2, 1/2, 1/2, 1/2, 1/2, 1/2, 1/2⟩⟩ "oracle unavailable"
    rfl rfl (by norm_num) rfl rfl

/-- Closed instance discharging the hypotheses of the amended C7 statement
at concrete environments. -/
theorem storeFailure_propagation_amended_witness :
    updatePreferences (.error "store down") {} (.ok ()) = .error "store down"
    ∧ updatePreferences (.ok DEFAULT_PREFERENCES) {} (.error "write refused")
        = .error "write refused"
    ∧ triggerVoiceRefinement c7Env c7Store
        = (c7Store, ⟨true, false, false, some "store write failed"⟩) := by
  have h := storeFailure_propagation_amended
  exact ⟨h.1 "store down" {} (.ok ()),
         h.2.1 DEFAULT_PREFERENCES {} "write refused",
         h.2.2 Unit Unit c7Env c7Store [(), (), (), (), ()] []
           ⟨"Default Profile", ⟨1/2, 1/2, 1/2, 1/2, 1/2, 1/2, 1/2, 1/2⟩⟩ {}
           "store write failed" rfl rfl (by norm_num) rfl rfl rfl⟩
/-- C2: in the history-analysis stage (no preferred language, no caption
detection, no image hint, non-null distribution) the ranked shares decide
the outcome: top share at least 0.7 gives single audience-majority,
otherwise top share at least 0.5 with a second share of at least 0.2 gives
bilingual audience-mixed, otherwise single audience-default; and the two
documented distributions resolve to single en and bilingual en/hi. -/
theorem recommendLanguage_history_spec (fallback : String) (dist : List (String × ℚ))
    (topLang : String) (topShare : ℚ) (rest : List (String × ℚ))
    (hr : rankDesc dist = (topLang, topShare) :: rest) :
    (7/10 ≤ topShare →
      (recommendLanguage none none none fallback (some dist)).1
        = some ⟨"single", topLang, none, "audience-majority", ["history"]⟩)
    ∧ (topShare < 7/10 → 1/2 ≤ topShare → 1/5 ≤ (rest.head?.map Prod.snd).getD 0 →
      (recommendLanguage none none none fallback (some dist)).1
        = some ⟨"bilingual", topLang, rest.head?.map Prod.fst, "audience-mixed",
            ["history"]⟩)
    ∧ (topShare < 7/10 → (topShare < 1/2 ∨ (rest.head?.map Prod.snd).getD 0 < 1/5) →
      (recommendLanguage none none none fallback (some dist)).1
        = some ⟨"single", topLang, none, "audience-default", ["history"]⟩)
    ∧ (recommendLanguage none none none "en" (some [("en", 4/5), ("hi", 1/5)])).1
        = some ⟨"single", "en", none, "audience-majority", ["history"]⟩
    ∧ (recommendLanguage none none none "en"
        (some [("en", 11/20), ("hi", 1/4), ("ta", 1/5)])).1
        = some ⟨"bilingual", "en", some "hi", "audience-mixed", ["history"]⟩ := by
  have hrank1 : rankDesc [("en", (4:ℚ)/5), ("hi", 1/5)] = [("en", 4/5), ("hi", 1/5)] := by
    norm_num [rankDesc, sortByGt, insertByGt]
  have hrank2 : rankDesc [("en", (11:ℚ)/20), ("hi", 1/4), ("ta", 1/5)]
      = [("en", 11/20), ("hi", 1/4), ("ta", 1/5)] := by
    norm_num [rankDesc, sortByGt, insertByGt]
  refine ⟨?_, ?_, ?_, ?_, ?_⟩
  · intro h
    simp [recommendLanguage, jsTruthyStr, hr, h]
  · intro h1 h2 h3
    simp [recommendLanguage, jsTruthyStr, hr, not_le.mpr h1]
    rw [if_pos ⟨by linarith, by linarith⟩]
  · intro h1 h2
    simp [recommendLanguage, jsTruthyStr, hr, not_le.mpr h1]
    rcases h2 with h2 | h2 <;> rw [if_neg (by rintro ⟨ha, hb⟩; linarith)]
  · simp only [recommendLanguage, jsTruthyStr]
    norm_num [hrank1]
  · simp only [recommendLanguage, jsTruthyStr]
    norm_num [hrank2]

/-- Closed instance discharging the ranking hypothesis and threshold
hypotheses of recommendLanguage_history_spec at the documented 0.8/0.2
distribution. -/
theorem recommendLanguage_history_spec_witness :
    (recommendLanguage none none none "en" (some [("en", 4/5), ("hi", 1/5)])).1
      = some ⟨"single", "en", none, "audience-majority", ["history"]⟩ := by
  have hrank : rankDesc [("en", (4:ℚ)/5), ("hi", 1/5)] = [("en", 4/5), ("hi", 1/5)] := by
    norm_num [rankDesc, sortByGt, insertByGt]
  exact (recommendLanguage_history_spec "en" [("en", 4/5), ("hi", 1/5)]
    "en" (4/5) [("hi", 1/5)] hrank).1 (by norm_num)

/-- C8 counterexample: with no preferred language but a successful caption
detection, the run still computes the post-history distribution (second
component true) even though the caption stage produces the result — the
history lookup is not reserved for the case where the earlier stages
produced nothing. -/
theorem recommendLanguage_eager_history_counterexample :
    recommendLanguage none (some "en") none "en" (some [("hi", (1:ℚ))])
      = (some ⟨"single", "en", none, "caption-detected", ["caption", "history"]⟩,
         true) := rfl

/-- C8 as amended: the stages still resolve in the order preference check,
caption detection, image hint, history analysis, fallback, and the first
stage producing a result determines the output; but the history
distribution is fetched whenever the preferred language is absent, merely
going unused unless the earlier stages produce nothing. -/
theorem recommendLanguage_priority_amended (pref capDet hint : Option String)
    (fallback : String) (dist : Option (List (String × ℚ))) :
    (∀ p, pref = some p → p ≠ "" →
        recommendLanguage pref capDet hint fallback dist
          = (some ⟨"single", p, none, "user-preference", ["preference"]⟩, false))
    ∧ (jsTruthyStr pref = false →
        (recommendLanguage pref capDet hint fallback dist).2 = true)
    ∧ (jsTruthyStr pref = false → ∀ c, capDet = some c →
        (recommendLanguage pref capDet hint fallback dist).1
          = some ⟨"single", c, none, "caption-detected",
              "caption" :: (if dist.isSome then ["history"] else [])⟩)
    ∧ (jsTruthyStr pref = false → capDet = none → ∀ h, hint = some h → h ≠ "" →
        (recommendLanguage pref capDet hint fallback dist).1
          = some ⟨"single", h, none, "image-detected",
              (if dist.isSome then ["history"] else []) ++ ["image"]⟩)
    ∧ (jsTruthyStr pref = false → capDet = none → jsTruthyStr hint = false →
        dist = none →
        (recommendLanguage pref capDet hint fallback dist).1
          = some ⟨"single", fallback, none, "fallback", []⟩) := by
  refine ⟨?_, ?_, ?_, ?_, ?_⟩
  · intro p hp hne
    subst hp
    simp [recommendLanguage, jsTruthyStr, hne]
  · intro hpref
    rw [recommendLanguage]
    simp only [hpref, Bool.false_eq_true, if_false]
    match capDet with
    | some c => rfl
    | none =>
      simp only
      by_cases hh : jsTruthyStr hint
      · simp [hh]
      · simp only [hh, Bool.false_eq_true, if_false]
        match dist with
        | none => rfl
        | some entries =>
          simp only
          match rankDesc entries with
          | [] => rfl
          | (topLang, topShare) :: rest =>
            simp only
            by_cases h1 : 7/10 ≤ topShare
            · simp [h1]
            · simp only [h1, if_false]
              by_cases h2 : 1/2 ≤ topShare ∧ 1/5 ≤ ((rest.head?.map Prod.snd).getD 0)
              · rw [if_pos h2]
              · rw [if_neg h2]
  · intro hpref c hc
    subst hc
    simp [recommendLanguage, hpref]
  · intro hpref hc h hh hne
    subst hc
    subst hh
    rw [recommendLanguage]
    simp only [hpref, Bool.false_eq_true, if_false]
    simp [jsTruthyStr, hne]
  · intro hpref hc hh hd
    subst hc
    subst hd
    rw [recommendLanguage]
    simp [hpref, hh]

/-- Closed instance discharging the hypotheses of the amended C8 statement
at concrete stage inputs. -/
theorem recommendLanguage_priority_amended_witness :
    recommendLanguage (some "te") (some "en") (some "hi") "en" none
      = (some ⟨"single", "te", none, "user-preference", ["preference"]⟩, false)
    ∧ (recommendLanguage none (some "en") none "en" none).2 = true
    ∧ (recommendLanguage none none (some "hi") "en" none).1
      = some ⟨"single", "hi", none, "image-detected", ["image"]⟩
    ∧ (recommendLanguage none none none "en" none).1
      = some ⟨"single", "en", none, "fallback", []⟩ := by
  refine ⟨?_, ?_, ?_, ?_⟩
  · exact (recommendLanguage_priority_amended (some "te") (some "en") (some "hi")
      "en" none).1 "te" rfl (by simp)
  · exact (recommendLanguage_priority_amended none (some "en") none "en" none).2.1 rfl
  · have h := (recommendLanguage_priority_amended none none (some "hi") "en"
      none).2.2.2.1 rfl rfl "hi" rfl (by simp)
    simpa using h
  · exact (recommendLanguage_priority_amended none none none "en"
      none).2.2.2.2 rfl rfl rfl rfl

/-! ## List invariants of the preference store -/

/-- A blank string: empty or whitespace-only. -/
def isBlank (s : String) : Prop := ∀ c ∈ s.data, isJsSpace c = true

/-- The invariant of the two phrase-list fields: at most 10 entries, no
duplicates, no blank entries. -/
def listInv (l : List String) : Prop :=
  l.length ≤ 10 ∧ l.Nodup ∧ ∀ s ∈ l, ¬ isBlank s

/-- The head surviving dropWhile fails the predicate. -/
theorem dropWhile_head_false {p : Char → Bool} :
    ∀ (l : List Char) (a : Char) (t : List Char), l.dropWhile p = a :: t → p a = false := by
  intro l
  induction l with
  | nil => intro a t h; simp [List.dropWhile] at h
  | cons x xs ih =>
      intro a t h
      by_cases hx : p x
      · rw [List.dropWhile_cons_of_pos hx] at h
        exact ih a t h
      · rw [List.dropWhile_cons_of_neg hx] at h
        injection h with h1 h2
        subst h1
        simpa using hx

/-- A non-empty trimmed string is not blank: its first character is not
whitespace. -/
theorem jsTrim_not_blank (s : String) (h : jsTrim s ≠ "") : ¬ isBlank (jsTrim s) := by
  rw [jsTrim] at h ⊢
  have hne : (s.data.dropWhile isJsSpace).rdropWhile isJsSpace ≠ [] := by
    intro hl
    exact h (by rw [hl])
  match hm : (s.data.dropWhile isJsSpace).rdropWhile isJsSpace, hne with
  | a :: t, _ =>
    have hpre : (s.data.dropWhile isJsSpace).rdropWhile isJsSpace
        <+: s.data.dropWhile isJsSpace := List.rdropWhile_prefix _ _
    rw [hm] at hpre
    obtain ⟨u, hu⟩ := hpre
    have hd : s.data.dropWhile isJsSpace = a :: (t ++ u) := by
      rw [← hu]; simp
    have hfa : isJsSpace a = false := dropWhile_head_false _ a _ hd
    intro hb
    have := hb a (List.mem_cons_self a t)
    rw [hfa] at this
    exact Bool.false_ne_true this

/-- The accumulator invariant of the merge fold. -/
def entriesOk (l : List String) : Prop := l.Nodup ∧ ∀ s ∈ l, ¬ isBlank s

/-- One Set insertion preserves the accumulator invariant. -/
theorem setAddTrimmed_ok (acc : List String) (h : entriesOk acc) (item : String) :
    entriesOk (setAddTrimmed acc item) := by
  rw [setAddTrimmed]
  by_cases h1 : jsTrim item ≠ ""
  · rw [if_pos h1]
    by_cases h2 : jsTrim item ∈ acc
    · rw [if_pos h2]; exact h
    · rw [if_neg h2]
      constructor
      · rw [List.nodup_append]
        exact ⟨h.1, List.nodup_singleton _, by simpa using h2⟩
      · intro s hs
        rcases List.mem_append.mp hs with hs | hs
        · exact h.2 s hs
        · rw [List.mem_singleton] at hs
          subst hs
          exact jsTrim_not_blank item h1
  · rw [if_neg h1]; exact h

/-- The whole merge fold preserves the accumulator invariant. -/
theorem foldl_setAddTrimmed_ok :
    ∀ (l : List String) (acc : List String), entriesOk acc →
      entriesOk (l.foldl setAddTrimmed acc) := by
  intro l
  induction l with
  | nil => intro acc h; exact h
  | cons x xs ih =>
      intro acc h
      exact ih (setAddTrimmed acc x) (setAddTrimmed_ok acc h x)

/-- mergeUniqueLists output: at most limit entries, no duplicates, no blank
entries. -/
theorem mergeUniqueLists_inv (a b : List String) (n : Nat) :
    (mergeUniqueLists a b n).length ≤ n ∧ (mergeUniqueLists a b n).Nodup
      ∧ ∀ s ∈ mergeUniqueLists a b n, ¬ isBlank s := by
  have h := foldl_setAddTrimmed_ok (a ++ b) [] ⟨List.nodup_nil, by simp⟩
  rw [mergeUniqueLists]
  exact ⟨List.length_take_le n _,
         List.Nodup.sublist (List.take_sublist n _) h.1,
         fun s hs => h.2 s (List.take_subset n _ hs)⟩

/-- mergeLists is the verbatim duplicate of mergeUniqueLists. -/
theorem mergeLists_eq (a b : List String) (n : Nat) :
    mergeLists a b n = mergeUniqueLists a b n := rfl

/-- C9: mergeUniqueLists caps at the limit with no duplicate and no blank
entry; updatePreferences preserves the list invariant on both phrase
fields (common_phrases is always re-merged, disliked_phrases is re-merged
or kept); the snapshot returned by learnFromCaption carries an invariant
common_phrases list; the defaults satisfy the invariant; and the
documented merge of ["a","b","a"] with ["b","c"] at limit 2 is exactly
["a","b"]. -/
theorem preferenceLists_invariant :
    (∀ (a b : List String) (n : Nat),
        (mergeUniqueLists a b n).length ≤ n ∧ (mergeUniqueLists a b n).Nodup
          ∧ ∀ s ∈ mergeUniqueLists a b n, ¬ isBlank s)
    ∧ (∀ (currentPrefs : Prefs) (preferenceUpdates : PrefUpdates),
        listInv currentPrefs.disliked_phrases →
        listInv (updatePreferencesPure currentPrefs preferenceUpdates).common_phrases
          ∧ listInv (updatePreferencesPure currentPrefs preferenceUpdates).disliked_phrases)
    ∧ (∀ (ur : UnicodeRegex) (userId : Option Nat) (finalCaption : String)
        (ctxLanguage : Option String) (readPrefs : Except String Prefs)
        (u : PrefUpdates),
        (learnFromCaption ur userId finalCaption ctxLanguage readPrefs).1 = .ok (some u) →
        ∃ phrases, u.common_phrases = some phrases ∧ listInv phrases)
    ∧ (listInv DEFAULT_PREFERENCES.common_phrases
        ∧ listInv DEFAULT_PREFERENCES.disliked_phrases)
    ∧ mergeUniqueLists ["a", "b", "a"] ["b", "c"] 2 = ["a", "b"] := by
  have hmerge : ∀ (a b : List String), listInv (mergeUniqueLists a b 10) := by
    intro a b
    exact mergeUniqueLists_inv a b 10
  refine ⟨mergeUniqueLists_inv, ?_, ?_, ?_, ?_⟩
  · intro currentPrefs preferenceUpdates hcur
    constructor
    · exact hmerge _ _
    · rw [updatePreferencesPure]
      match preferenceUpdates.disliked_phrases with
      | some l => exact hmerge _ _
      | none => exact hcur
  · intro ur userId finalCaption ctxLanguage readPrefs u h
    rw [learnFromCaption.eq_def] at h
    by_cases hg : ¬ jsTruthyNat userId = true ∨ finalCaption = ""
    · rw [if_pos hg] at h
      simp at h
    · rw [if_neg hg] at h
      match hrp : readPrefs with
      | .error e =>
        simp at h
      | .ok existingPrefs =>
        simp only at h
        injection h with h1
        injection h1 with h2
        refine ⟨mergeLists existingPrefs.common_phrases
          (extractPhrases finalCaption) 10, ?_, ?_⟩
        · rw [← h2]
        · rw [mergeLists_eq]
          exact hmerge _ _
  · constructor <;> simp [listInv, DEFAULT_PREFERENCES]
  · decide

/-- Closed instance discharging the list-invariant hypothesis of the C9
statement at the default preferences and checking the documented merge. -/
theorem preferenceLists_invariant_witness :
    listInv (updatePreferencesPure DEFAULT_PREFERENCES {}).common_phrases
    ∧ listInv (updatePreferencesPure DEFAULT_PREFERENCES {}).disliked_phrases
    ∧ mergeUniqueLists ["a", "b", "a"] ["b", "c"] 2 = ["a", "b"] := by
  have h := preferenceLists_invariant
  have hd : listInv DEFAULT_PREFERENCES.disliked_phrases := h.2.2.2.1.2
  exact ⟨(h.2.1 DEFAULT_PREFERENCES {} hd).1, (h.2.1 DEFAULT_PREFERENCES {} hd).2,
         h.2.2.2.2⟩

/-- A concrete external-regex capability for witnesses: no emoji matches. -/
def noEmoji : UnicodeRegex := ⟨fun _ => 0, fun _ => false⟩

/-- C10: with a falsy userId or an empty finalized caption,
learnFromCaption returns null without reaching the getPreferences read,
and the memory block of the generation route performs no preference read,
no updatePreferences call and no store write. -/
theorem learnFromCaption_falsy_noop (ur : UnicodeRegex) (userId : Option Nat)
    (finalCaption : String) (ctxLanguage : Option String)
    (readPrefs : Except String Prefs)
    (h : userId = none ∨ userId = some 0 ∨ finalCaption = "") :
    learnFromCaption ur userId finalCaption ctxLanguage readPrefs = (.ok none, false)
    ∧ ∀ (readPrefs2 : Except String Prefs) (writeResult : Except String Unit),
        routeMemoryStep ur userId finalCaption ctxLanguage readPrefs readPrefs2
          writeResult = ⟨false, false, false, none⟩ := by
  have hguard : ¬ jsTruthyNat userId = true ∨ finalCaption = "" := by
    rcases h with rfl | rfl | rfl
    · left; simp [jsTruthyNat]
    · left; simp [jsTruthyNat]
    · right; rfl
  have hlearn : learnFromCaption ur userId finalCaption ctxLanguage readPrefs
      = (.ok none, false) := by
    rw [learnFromCaption.eq_def, if_pos hguard]
  refine ⟨hlearn, ?_⟩
  intro readPrefs2 writeResult
  rw [routeMemoryStep, hlearn]

/-- Closed instance discharging the falsy-input hypothesis of C10 at a
concrete blank caption. -/
theorem learnFromCaption_falsy_noop_witness :
    learnFromCaption noEmoji (some 7) "" (some "en") (.ok DEFAULT_PREFERENCES)
      = (.ok none, false)
    ∧ routeMemoryStep noEmoji (some 7) "" (some "en") (.ok DEFAULT_PREFERENCES)
        (.ok DEFAULT_PREFERENCES) (.ok ()) = ⟨false, false, false, none⟩ := by
  have h := learnFromCaption_falsy_noop noEmoji (some 7) "" (some "en")
    (.ok DEFAULT_PREFERENCES) (Or.inr (Or.inr rfl))
  exact ⟨h.1, h.2 (.ok DEFAULT_PREFERENCES) (.ok ())⟩
